import Mathlib

/-!
Verification of the OracleSQL CRUD helper (src/Oracle_DB_CRUD.py).

The Python source is shallowly embedded: Python values are the inductive
type PyVal, a raised Python exception is the error side of an Except, the
database catalog and table contents are an explicit Database state, and
the outcome of a driver round trip (success or oracledb error) is passed
in as an explicit parameter, since the real database is outside the
program.
-/

/-- Python runtime values that the embedded code manipulates. -/
inductive PyVal where
  | str (s : String)
  | pyInt (n : Int)
  | datetime (ts : Nat)
  | pyNone
deriving DecidableEq, Repr

/-- Python exceptions raised by the embedded code paths. -/
inductive PyError where
  | indexError
  | attributeError (msg : String)
  | unboundLocal (name : String)
deriving DecidableEq, Repr

/-- The classes that appear as second argument of isinstance in the code. -/
inductive PyClass where
  | strClass
  | datetimeClass
deriving DecidableEq, Repr

/-- Python isinstance on the embedded values. -/
def isinstance : PyVal → PyClass → Bool
  | PyVal.str _, PyClass.strClass => true
  | PyVal.datetime _, PyClass.datetimeClass => true
  | _, _ => false

/-- Python list indexing xs[i]: raises IndexError when out of range. -/
def pyIndex (xs : List PyVal) (i : Nat) : Except PyError PyVal :=
  match xs.get? i with
  | some v => Except.ok v
  | none => Except.error PyError.indexError

/-- Message of the AttributeError raised by evaluating datetime.datetime. -/
def dtAttrMsg : String :=
  "type object datetime.datetime has no attribute datetime"

/-- Evaluating the expression datetime.datetime in upload_log.  The module
imports the class (from datetime import datetime), so the attribute lookup
.datetime on that class raises AttributeError; it never yields a class. -/
def datetime_datetime : Except PyError PyClass :=
  Except.error (PyError.attributeError dtAttrMsg)

/-- The valid_values list of upload_log (line 183 of the source). -/
def valid_values : List String :=
  ["drive_1", "drive_2", "drive_3", "drive_4", "drive_5", "drive_6"]

/-- Python membership test v in l where l is a list of strings. -/
def strMember (v : PyVal) (l : List String) : Bool :=
  match v with
  | PyVal.str s => l.contains s
  | _ => false

/-- What upload_log produces when it does not raise: a validation message,
or the forwarding of the inputs to call_procedure. -/
inductive UploadResult where
  | validationError (msg : String)
  | forwarded (procName : String) (inputs : List PyVal)
deriving DecidableEq, Repr

/-- Embedding of OracleSQL.upload_log (source lines 172-195).  Each elif
condition is evaluated only when the previous ones were False; inside
isinstance the subscript procedure_inputs[i] is evaluated before the class
expression, so the IndexError of a short list precedes the AttributeError
of datetime.datetime. -/
def upload_log (procedure_name : String) (procedure_inputs : List PyVal) :
    Except PyError UploadResult :=
  match pyIndex procedure_inputs 0 with
  | Except.error e => Except.error e
  | Except.ok i0 =>
    if ! isinstance i0 PyClass.strClass then
      Except.ok (UploadResult.validationError
        "Invalid input: First input must be string")
    else
      match pyIndex procedure_inputs 1 with
      | Except.error e => Except.error e
      | Except.ok i1 =>
        match datetime_datetime with
        | Except.error e => Except.error e
        | Except.ok cls =>
          if ! isinstance i1 cls then
            Except.ok (UploadResult.validationError
              "Invalid input: Second input must be datetime")
          else
            match pyIndex procedure_inputs 2 with
            | Except.error e => Except.error e
            | Except.ok i2 =>
              if ! isinstance i2 PyClass.strClass then
                Except.ok (UploadResult.validationError
                  "Invalid input: Third input must be string")
              else if ! strMember i2 valid_values then
                Except.ok (UploadResult.validationError
                  "Invalid input: Third input must be a string of value drive_1 / 2 / 3 / 4 / 5 / 6")
              else
                match pyIndex procedure_inputs 3 with
                | Except.error e => Except.error e
                | Except.ok i3 =>
                  if ! isinstance i3 PyClass.strClass then
                    Except.ok (UploadResult.validationError
                      "Invalid input: Fourth input must be string")
                  else
                    Except.ok (UploadResult.forwarded procedure_name procedure_inputs)

/-- A table schema: column names with their type strings, in insertion
order of the Python dict. -/
abbrev Schema := List (String × String)

/-- A stored row: column names with their bound values, in insertion
order of the Python dict. -/
abbrev Row := List (String × PyVal)

/-- The visible database state: the all_tables catalog entries (each with
the schema the CREATE TABLE gave it) and the inserted rows per table. -/
structure Database where
  schemas : List (String × Schema)
  rows : List (String × Row)
deriving DecidableEq, Repr

/-- The empty database: no catalog entries, no rows. -/
def emptyDB : Database := ⟨[], []⟩

/-- A database whose catalog holds one table named T. -/
def dbWithT : Database := ⟨[("T", [("id", "INT")])], []⟩

/-- Python str.upper() for the ASCII identifiers this program uses:
upper-case every character. -/
def pyUpper (s : String) : String := String.mk (s.data.map Char.toUpper)

/-- The COUNT(*) of the catalog query of check_table_exists (line 65):
rows of all_tables whose table_name equals the upper-cased argument. -/
def catalogCount (db : Database) (table_name : String) : Nat :=
  (db.schemas.filter (fun p => p.1 == pyUpper table_name)).length

/-- Embedding of OracleSQL.check_table_exists (source lines 54-68).
First component: the Python return value, some true for the found path
and none for the implicit None of the fall-through path.  Second
component: whether the cursor was closed (only the fall-through path
reaches cur.close()). -/
def check_table_exists (db : Database) (table_name : String) :
    Option Bool × Bool :=
  if catalogCount db table_name ≠ 0 then (some true, false)
  else (none, true)

/-- Python truthiness of the value check_table_exists returns: None is
falsy, the booleans are themselves. -/
def pyTruthy : Option Bool → Bool
  | some b => b
  | none => false

/-- Python string slicing s[:-1]: drop the last character. -/
def pyDropLast (s : String) : String := String.mk s.data.dropLast

/-- The sql_query string built by create_table (source lines 81-84):
start from "CREATE TABLE <NAME> (", append "<name> <type>," per dict
entry, then drop the last character and append ")". -/
def buildCreateTableQuery (table_name : String) (columns_dict : Schema) :
    String :=
  let base := "CREATE TABLE " ++ pyUpper table_name ++ " ("
  let q := columns_dict.foldl (fun acc p => acc ++ (p.1 ++ " " ++ p.2 ++ ",")) base
  pyDropLast q ++ ")"

/-- Outcome of a call to create_table: the database after the call, the
SQL statement executed (none when no statement was issued), and the
message printed. -/
structure CreateTableResult where
  db : Database
  executedSQL : Option String
  message : String
deriving DecidableEq, Repr

/-- Embedding of OracleSQL.create_table (source lines 70-95): when the
truthiness test on check_table_exists fails, build and execute the CREATE
TABLE statement (executing registers the table with its schema) and
commit; otherwise print the already-exists message and touch nothing. -/
def create_table (db : Database) (table_name : String)
    (columns_dict : Schema) : CreateTableResult :=
  if ! pyTruthy (check_table_exists db table_name).1 then
    let sql_query := buildCreateTableQuery table_name columns_dict
    { db := { db with schemas := db.schemas ++ [(pyUpper table_name, columns_dict)] },
      executedSQL := some sql_query,
      message := "Table " ++ pyUpper table_name ++ " created successfully" }
  else
    { db := db,
      executedSQL := none,
      message := "Table " ++ pyUpper table_name ++ " already exists" }

/-- Python ", ".join(l). -/
def commaSpaceJoin : List String → String
  | [] => ""
  | [x] => x
  | x :: y :: t => x ++ ", " ++ commaSpaceJoin (y :: t)

/-- The INSERT statement built by insert_into_table (source lines
135-137). -/
def buildInsertQuery (table_name : String) (values_dic : Row) : String :=
  let col_str := commaSpaceJoin (values_dic.map Prod.fst)
  let value_str := commaSpaceJoin
    ((List.range values_dic.length).map (fun i => ":" ++ toString (i + 1)))
  "INSERT INTO " ++ pyUpper table_name ++ "(" ++ col_str ++ ") VALUES(" ++ value_str ++ ")"

/-- Outcome of a call to insert_into_table: the database after the call,
the SQL statement executed (none when none was issued), and the message
printed. -/
structure InsertResult where
  db : Database
  executedSQL : Option String
  message : String
deriving DecidableEq, Repr

/-- Embedding of OracleSQL.insert_into_table (source lines 121-146): when
the truthiness test on check_table_exists succeeds, execute the INSERT
with the dict values bound positionally (executing stores the row) and
commit; otherwise print the does-not-exist message and touch nothing. -/
def insert_into_table (db : Database) (table_name : String)
    (values_dic : Row) : InsertResult :=
  if pyTruthy (check_table_exists db table_name).1 then
    let query := buildInsertQuery table_name values_dic
    { db := { db with rows := db.rows ++ [(pyUpper table_name, values_dic)] },
      executedSQL := some query,
      message := "Record inserted successfully" }
  else
    { db := db,
      executedSQL := none,
      message := "Table " ++ pyUpper table_name ++ " does not exist" }

/-- Lookup of a column value in a stored row. -/
def rowLookup (r : Row) (col : String) : Option PyVal :=
  (r.find? (fun p => p.1 == col)).map Prod.snd

/-- The rows the database holds for a table (the name is stored
upper-cased, as the INSERT and CREATE statements write it). -/
def tableRows (db : Database) (table_name : String) : List Row :=
  (db.rows.filter (fun p => p.1 == pyUpper table_name)).map Prod.snd

/-- The rows of a table whose given column holds the given value: the
rows the WHERE clause of the duplicate query keeps. -/
def matchingRows (db : Database) (table_name column_name : String)
    (value : PyVal) : List Row :=
  (tableRows db table_name).filter (fun r => rowLookup r column_name == some value)

/-- Result set of the duplicate query of check_duplicates (line 211):
GROUP BY the column after filtering to the one value leaves at most one
group, and HAVING COUNT(*) > 1 keeps it only when it has two or more
rows. -/
def duplicateQueryResult (db : Database) (table_name column_name : String)
    (value : PyVal) : List (PyVal × Nat) :=
  let c := (matchingRows db table_name column_name value).length
  if 1 < c then [(value, c)] else []

/-- Whether the driver round trip for one statement succeeded or raised
an oracledb error; the embedded methods take it as a parameter. -/
inductive QueryOutcome where
  | success
  | dbError (msg : String)
deriving DecidableEq, Repr

/-- Embedding of OracleSQL.check_duplicates (source lines 197-222).
First component: the returned boolean, cur.rowcount > 0 after fetchall on
success and False when the except clause caught an oracledb error.
Second component: the cursor is closed on both paths by the finally
block. -/
def check_duplicates (db : Database) (table_name column_name : String)
    (value : PyVal) (q : QueryOutcome) : Bool × Bool :=
  match q with
  | QueryOutcome.success =>
      (decide (0 < (duplicateQueryResult db table_name column_name value).length), true)
  | QueryOutcome.dbError _ => (false, true)

/-- Outcome of the callproc round trip inside call_procedure: either the
procedure ran and the cursor then fetches these rows, or the driver
raised a database error with this code and message. -/
inductive ProcOutcome where
  | success (rows : List Row)
  | dbError (code : Int) (msg : String)
deriving DecidableEq, Repr

/-- Side effects of one call_procedure call. -/
structure CallProcEffects where
  committed : Bool
  cursorClosed : Bool
deriving DecidableEq, Repr

/-- Embedding of OracleSQL.call_procedure (source lines 148-170).  On
success the try block commits and binds procedure_return to the fetched
rows; on a database error the except clause only prints, leaving
procedure_return unbound.  The finally block closes the cursor and then
executes the return statement on every path, so the error path raises an
unbound-local error when the return evaluates the never-assigned name. -/
def call_procedure (o : ProcOutcome) :
    Except PyError (List Row) × CallProcEffects :=
  let procedure_return : Option (List Row) :=
    match o with
    | ProcOutcome.success rows => some rows
    | ProcOutcome.dbError _ _ => none
  let committed : Bool :=
    match o with
    | ProcOutcome.success _ => true
    | ProcOutcome.dbError _ _ => false
  let returned : Except PyError (List Row) :=
    match procedure_return with
    | some rows => Except.ok rows
    | none => Except.error (PyError.unboundLocal "procedure_return")
  (returned, { committed := committed, cursorClosed := true })

/-- One column pair rendered as name-space-type. -/
def pairFmt (p : String × String) : String := p.1 ++ " " ++ p.2

/-- Join of a list of strings with a bare comma between entries. -/
def commaJoin : List String → String
  | [] => ""
  | [x] => x
  | x :: y :: t => x ++ "," ++ commaJoin (y :: t)

/-- Modelled from the spec words (section 6, table creation statement),
to compare against the builder embedded from the source: the upper-cased
name immediately followed by the parenthesis, and the column pairs
separated by a comma and a space. -/
def specCreateTableQuery (table_name : String) (columns_dict : Schema) :
    String :=
  "CREATE TABLE " ++ pyUpper table_name ++ "(" ++
    commaSpaceJoin (columns_dict.map pairFmt) ++ ")"

lemma foldl_chunks (l : Schema) (acc : String) :
    l.foldl (fun a p => a ++ (p.1 ++ " " ++ p.2 ++ ",")) acc =
      acc ++ l.foldr (fun p s => (p.1 ++ " " ++ p.2 ++ ",") ++ s) "" := by
  induction l generalizing acc with
  | nil => simp [String.append_empty]
  | cons p t ih =>
      rw [List.foldl_cons, List.foldr_cons, ih]
      simp [String.append_assoc]

lemma chunks_eq_commaJoin (p : String × String) (t : Schema) :
    (p :: t).foldr (fun q s => (q.1 ++ " " ++ q.2 ++ ",") ++ s) "" =
      commaJoin ((p :: t).map pairFmt) ++ "," := by
  induction t generalizing p with
  | nil => simp [commaJoin, pairFmt, String.append_empty, String.append_assoc]
  | cons q t ih =>
      rw [List.foldr_cons, ih q]
      simp [commaJoin, pairFmt, String.append_assoc]

lemma pyDropLast_append_comma (s : String) : pyDropLast (s ++ ",") = s := by
  apply String.ext
  show (s ++ ",").data.dropLast = s.data
  rw [String.data_append]
  show (s.data ++ [',']).dropLast = s.data
  exact List.dropLast_concat

lemma pyDropLast_space_paren (a : String) : pyDropLast (a ++ " (") = a ++ " " := by
  apply String.ext
  show (a ++ " (").data.dropLast = (a ++ " ").data
  rw [String.data_append, String.data_append]
  show (a.data ++ [' ', '(']).dropLast = a.data ++ [' ']
  rw [show a.data ++ [' ', '('] = (a.data ++ [' ']) ++ ['('] by simp]
  exact List.dropLast_concat

lemma buildCreateTableQuery_nil (table_name : String) :
    buildCreateTableQuery table_name [] =
      "CREATE TABLE " ++ pyUpper table_name ++ " )" := by
  show pyDropLast ("CREATE TABLE " ++ pyUpper table_name ++ " (") ++ ")" = _
  rw [pyDropLast_space_paren]
  have hsp : (" " : String) ++ ")" = " )" := rfl
  rw [String.append_assoc ("CREATE TABLE " ++ pyUpper table_name) " " ")", hsp]

/-- C5: the claim fails on the code only in its spacing: the source puts
a space between the upper-cased name and the opening parenthesis, and the
concatenated pairs keep their bare commas with no following space.  For a
non-empty column dict the statement is CREATE TABLE NAME (c1 t1,c2 t2,...)
with the trailing comma trimmed. -/
theorem create_table_query_shape (table_name : String) (p : String × String)
    (t : Schema) :
    buildCreateTableQuery table_name (p :: t) =
      "CREATE TABLE " ++ pyUpper table_name ++ " (" ++
        commaJoin ((p :: t).map pairFmt) ++ ")" := by
  show pyDropLast ((p :: t).foldl
      (fun acc q => acc ++ (q.1 ++ " " ++ q.2 ++ ","))
      ("CREATE TABLE " ++ pyUpper table_name ++ " (")) ++ ")" = _
  rw [foldl_chunks, chunks_eq_commaJoin, ← String.append_assoc,
    pyDropLast_append_comma]

/-- C5 counterexample: on the two-column dict of the bottom-of-file
script, the statement the code builds differs from the statement form the
spec asserts. -/
theorem create_table_query_differs_from_spec :
    buildCreateTableQuery "example_table" [("id", "INT"), ("date_time", "DATE")] ≠
      specCreateTableQuery "example_table" [("id", "INT"), ("date_time", "DATE")] := by
  decide

lemma filter_length_ne_zero {α : Type} (f : α → Bool) (l : List α) :
    ((l.filter f).length ≠ 0) ↔ (l.any f = true) := by
  induction l with
  | nil => simp
  | cons a t ih => cases h : f a <;> simp [List.filter_cons, h, ih]

lemma catalogCount_ne_zero (db : Database) (n : String) :
    catalogCount db n ≠ 0 ↔ db.schemas.any (fun p => p.1 == pyUpper n) = true :=
  filter_length_ne_zero _ _

/-- C2 (amended): check_table_exists returns True when the catalog holds
the upper-cased name and the implicit None when it does not; it never
returns the boolean False. -/
theorem check_table_exists_result (db : Database) (table_name : String) :
    (check_table_exists db table_name).1 =
      (if db.schemas.any (fun p => p.1 == pyUpper table_name)
        then some true else none) ∧
    (check_table_exists db table_name).1 ≠ some false := by
  unfold check_table_exists
  by_cases h : db.schemas.any (fun p => p.1 == pyUpper table_name) = true
  · rw [if_pos ((catalogCount_ne_zero db table_name).2 h), if_pos h]
    exact ⟨rfl, by simp⟩
  · have h2 : ¬ catalogCount db table_name ≠ 0 :=
      fun hn => h ((catalogCount_ne_zero db table_name).1 hn)
    rw [if_neg h2, if_neg h]
    exact ⟨rfl, by simp⟩

/-- C2 counterexample: on the empty catalog the not-found path returns
the implicit None, not the boolean False the claim states. -/
theorem check_table_exists_missing_not_false :
    (check_table_exists emptyDB "missing_table").1 = none ∧
    (check_table_exists emptyDB "missing_table").1 ≠ some false := by
  exact ⟨rfl, by decide⟩

/-- C6: when the truthiness test on check_table_exists passes,
create_table leaves the database untouched, executes no statement, and
prints the already-exists message. -/
theorem create_table_existing_noop (db : Database) (table_name : String)
    (columns_dict : Schema)
    (h : pyTruthy (check_table_exists db table_name).1 = true) :
    (create_table db table_name columns_dict).db = db ∧
    (create_table db table_name columns_dict).executedSQL = none ∧
    (create_table db table_name columns_dict).message =
      "Table " ++ pyUpper table_name ++ " already exists" := by
  unfold create_table
  rw [h]
  exact ⟨rfl, rfl, rfl⟩

/-- C6 witness: a concrete database already holding table T. -/
theorem create_table_existing_noop_witness :
    pyTruthy (check_table_exists dbWithT "t").1 = true ∧
    (create_table dbWithT "t" [("id", "INT")]).db = dbWithT :=
  ⟨by decide, (create_table_existing_noop dbWithT "t" [("id", "INT")] (by decide)).1⟩

/-- C7: when the truthiness test on check_table_exists fails,
insert_into_table leaves the database untouched, executes no statement,
and prints the does-not-exist message. -/
theorem insert_missing_table_noop (db : Database) (table_name : String)
    (values_dic : Row)
    (h : pyTruthy (check_table_exists db table_name).1 = false) :
    (insert_into_table db table_name values_dic).db = db ∧
    (insert_into_table db table_name values_dic).executedSQL = none ∧
    (insert_into_table db table_name values_dic).message =
      "Table " ++ pyUpper table_name ++ " does not exist" := by
  unfold insert_into_table
  rw [h]
  exact ⟨rfl, rfl, rfl⟩

/-- C7 witness: inserting into a table the empty database does not hold. -/
theorem insert_missing_table_noop_witness :
    pyTruthy (check_table_exists emptyDB "example_table").1 = false ∧
    (insert_into_table emptyDB "example_table" [("id", PyVal.pyInt 1)]).db = emptyDB :=
  ⟨by decide,
    (insert_missing_table_noop emptyDB "example_table" [("id", PyVal.pyInt 1)] (by decide)).1⟩

/-- C10: with the empty column dict the loop appends nothing, so dropping
the last character removes the opening parenthesis and the statement
degenerates to CREATE TABLE NAME ). -/
theorem create_table_empty_columns_query (db : Database) (table_name : String)
    (h : pyTruthy (check_table_exists db table_name).1 = false) :
    (create_table db table_name []).executedSQL =
      some ("CREATE TABLE " ++ pyUpper table_name ++ " )") := by
  unfold create_table
  rw [h]
  show some (buildCreateTableQuery table_name []) = _
  rw [buildCreateTableQuery_nil]

/-- C10 witness: the empty database and the table name of the script. -/
theorem create_table_empty_columns_query_witness :
    pyTruthy (check_table_exists emptyDB "example_table").1 = false ∧
    (create_table emptyDB "example_table" []).executedSQL =
      some ("CREATE TABLE " ++ pyUpper "example_table" ++ " )") :=
  ⟨by decide, create_table_empty_columns_query emptyDB "example_table" (by decide)⟩

/-- C1: the code cannot realise the claimed validation contract: on a
fully valid 4-tuple the second check evaluates datetime.datetime and
raises AttributeError instead of forwarding to call_procedure. -/
theorem upload_log_valid_input_crashes :
    upload_log "upload_data"
      [PyVal.str "log line", PyVal.datetime 1700000000, PyVal.str "drive_1",
        PyVal.str "user"] =
      Except.error (PyError.attributeError dtAttrMsg) := by
  rfl

/-- C3: call_procedure reaches its return on both paths: on success it
returns the fetched rows after committing, and on a database error the
return evaluates the never-assigned procedure_return and raises an
unbound-local error; the cursor is closed on both paths. -/
theorem call_procedure_return_paths (rows : List Row) (code : Int)
    (msg : String) :
    call_procedure (ProcOutcome.success rows) =
      (Except.ok rows, { committed := true, cursorClosed := true }) ∧
    call_procedure (ProcOutcome.dbError code msg) =
      (Except.error (PyError.unboundLocal "procedure_return"),
        { committed := false, cursorClosed := true }) := by
  exact ⟨rfl, rfl⟩

/-- C4: on a successful query check_duplicates returns true exactly when
at least two rows of the table hold the given value in the given column,
and on a database error it returns the same false as the no-duplicates
case. -/
theorem check_duplicates_spec (db : Database) (table_name column_name : String)
    (value : PyVal) :
    ((check_duplicates db table_name column_name value
        QueryOutcome.success).1 = true ↔
      2 ≤ (matchingRows db table_name column_name value).length) ∧
    (∀ msg, (check_duplicates db table_name column_name value
      (QueryOutcome.dbError msg)).1 = false) := by
  constructor
  · unfold check_duplicates duplicateQueryResult
    by_cases h : 1 < (matchingRows db table_name column_name value).length
    · simp [h]
      omega
    · simp [h]
      omega
  · intro msg
    rfl

lemma upload_log_no_forward (n : String) (xs : List PyVal) (m : String)
    (ys : List PyVal) :
    upload_log n xs ≠ Except.ok (UploadResult.forwarded m ys) := by
  cases xs with
  | nil => simp [upload_log, pyIndex]
  | cons a t =>
    cases a with
    | str s =>
      cases t with
      | nil => simp [upload_log, pyIndex, isinstance]
      | cons b t2 => simp [upload_log, pyIndex, isinstance, datetime_datetime]
    | pyInt k => simp [upload_log, pyIndex, isinstance]
    | datetime ts => simp [upload_log, pyIndex, isinstance]
    | pyNone => simp [upload_log, pyIndex, isinstance]

/-- C8 (amended): on every input list with at least two elements whose
element 0 is a string, the second check raises the AttributeError of
datetime.datetime before any further validation string can be returned;
consequently no call ever reaches call_procedure through upload_log. -/
theorem upload_log_attribute_error (procedure_name s : String) (v : PyVal)
    (rest : List PyVal) :
    upload_log procedure_name (PyVal.str s :: v :: rest) =
      Except.error (PyError.attributeError dtAttrMsg) ∧
    ∀ (n : String) (xs : List PyVal) (m : String) (ys : List PyVal),
      upload_log n xs ≠ Except.ok (UploadResult.forwarded m ys) :=
  ⟨rfl, fun n xs m ys => upload_log_no_forward n xs m ys⟩

/-- C8 counterexample: the single-element list with a string raises
IndexError at the second subscript, not the AttributeError the claim
states for every list whose element 0 is a string. -/
theorem upload_log_single_string_index_error :
    upload_log "upload_data" [PyVal.str "a"] = Except.error PyError.indexError ∧
    upload_log "upload_data" [PyVal.str "a"] ≠
      Except.error (PyError.attributeError dtAttrMsg) := by
  refine ⟨rfl, ?_⟩
  intro h
  rw [show upload_log "upload_data" [PyVal.str "a"] =
    Except.error PyError.indexError from rfl] at h
  simp [dtAttrMsg] at h

/-- C9: upload_log performs no length check: the empty list, whose
present elements satisfy the earlier checks vacuously, raises IndexError
at the first subscript instead of returning a validation string. -/
theorem upload_log_empty_index_error :
    upload_log "upload_data" [] = Except.error PyError.indexError ∧
    ∀ msg, upload_log "upload_data" [] ≠
      Except.ok (UploadResult.validationError msg) := by
  refine ⟨rfl, fun msg h => ?_⟩
  rw [show upload_log "upload_data" [] =
    Except.error PyError.indexError from rfl] at h
  exact Except.noConfusion h
